import Mathlib

/-!
Shallow embedding of the picture-service repository (hokushin118/picture-service).

The embedding follows the Python sources:
* `service/errors.py`   — the `PictureError` hierarchy, modelled by `Exn`;
* `service/services.py` — `PictureService.__init__` and `PictureService.upload_file`;
* `service/routers/pictures.py` — the `upload` route handler;
* `service/routes.py`   — the `health` and `version` (info) handlers.

Python exceptions are modelled as values of an inductive type `Exn`; a Python
function that may raise is embedded as a function returning `Except Exn α`.
Byte strings are `List Nat`; `Optional[str]` is `Option String`, with Python
truthiness of such a value captured by `pyFalsy`.  Calls made to the injected
storage client are recorded in an explicit trace so that claims about *which*
calls happen (and with which arguments) are statable.
-/

namespace PictureSvc

/-- The Python exceptions that flow through the service:
`FileStorageError` and `ValueError` come from outside
(`cba_core_lib` / builtins), the `PictureError` family is defined in
`service/errors.py` (each carries `message` and `original_exception`),
and `otherError` stands for any other `Exception` subclass. -/
inductive Exn where
  | fileStorageError (message : String)
  | valueError (message : String)
  | otherError (message : String)
  | pictureError (message : String) (original_exception : Option Exn)
  | pictureUploadError (message : String) (original_exception : Option Exn)
  | invalidInputError (message : String) (original_exception : Option Exn)

/-- Python `str(err)`: for all the exceptions in play, `Exception.__str__`
of a single-argument exception returns its message. -/
def Exn.str : Exn → String
  | .fileStorageError m => m
  | .valueError m => m
  | .otherError m => m
  | .pictureError m _ => m
  | .pictureUploadError m _ => m
  | .invalidInputError m _ => m

/-- The `original_exception` attribute of a `PictureError` (`service/errors.py`
line 37); exceptions outside the `PictureError` family have no such field. -/
def Exn.original : Exn → Option Exn
  | .pictureError _ o => o
  | .pictureUploadError _ o => o
  | .invalidInputError _ o => o
  | _ => none

/-- Whether the exception is (an instance of) `PictureUploadError`. -/
def Exn.isPictureUploadError : Exn → Bool
  | .pictureUploadError _ _ => true
  | _ => false

/-- Whether the exception is (an instance of) `InvalidInputError`. -/
def Exn.isInvalidInputError : Exn → Bool
  | .invalidInputError _ _ => true
  | _ => false

/-- Whether the exception is a builtin `ValueError`. -/
def Exn.isValueError : Exn → Bool
  | .valueError _ => true
  | _ => false

/-- Python truthiness test `not x` for an `Optional[str]`:
`None` and the empty string are falsy. -/
def pyFalsy : Option String → Bool
  | none => true
  | some s => s.isEmpty

/-- Python `f"{x}"` for an `Optional[str]`: `None` prints as `"None"`. -/
def pyStrOpt : Option String → String
  | none => "None"
  | some s => s

/-- `UploadResponseDTO` (`service/schemas.py`): metadata returned for a
successful upload. -/
structure UploadResponseDTO where
  original_filename : String
  object_name : String
  file_url : String
  size : Nat
  etag : String
deriving Repr, DecidableEq

/-- `SimpleFileData` / `FileUploadData` (`cba_core_lib.storage.schemas`):
the payload handed to the storage client
(`services.py` lines 85-90). -/
structure FileUploadData where
  content_bytes : List Nat
  size : Nat
  filename : String
  content_type : Option String
deriving Repr, DecidableEq

/-- The injected storage client (`cba_core_lib.storage.services.FileStorageService`),
modelled extensionally by the outcomes of its two operations:
`upload_file (file_data, bucket_name)` yields `(object_name, etag, file_size)`
and `get_file_url (bucket_name, object_name)` yields a URL; either may raise. -/
structure FileStorageService where
  upload_file : FileUploadData → String → Except Exn (String × String × Nat)
  get_file_url : String → String → Except Exn String

/-- One observable interaction with the storage client. -/
inductive StorageCall where
  | store (file_data : FileUploadData) (bucket_name : String)
  | resolveUrl (bucket_name : String) (object_name : String)
deriving Repr, DecidableEq

/-- `PictureService` state after construction: it stores the injected
storage service (`services.py` line 40). -/
structure PictureServiceState where
  file_storage_service : FileStorageService

/-- `PictureService.__init__` (`services.py` lines 26-44): a falsy
(`None`) storage service raises `ValueError`; otherwise the instance
stores the given service. -/
def PictureService.init (file_storage_service : Option FileStorageService) :
    Except Exn PictureServiceState :=
  match file_storage_service with
  | none => .error (.valueError "FileStorageService dependency is required.")
  | some svc => .ok { file_storage_service := svc }

/-- The `except` ladder guarding the storage upload call
(`services.py` lines 106-126): `FileStorageError` and any unexpected
exception become `PictureUploadError`, a `ValueError` becomes
`InvalidInputError`; all three preserve the original exception. -/
def wrapStoreExn (e : Exn) : Exn :=
  match e with
  | .fileStorageError _ =>
      .pictureUploadError ("Storage service failed during upload: " ++ e.str) (some e)
  | .valueError _ =>
      .invalidInputError ("Invalid file provided for upload: " ++ e.str) (some e)
  | _ =>
      .pictureUploadError ("Unexpected error during storage upload step: " ++ e.str) (some e)

/-- The `except` ladder guarding the URL retrieval call
(`services.py` lines 139-152): every exception becomes
`PictureUploadError` preserving the original. -/
def wrapUrlExn (e : Exn) : Exn :=
  match e with
  | .fileStorageError _ =>
      .pictureUploadError ("Failed to get file URL from storage service " ++ e.str) (some e)
  | _ =>
      .pictureUploadError ("Unexpected error getting file URL: " ++ e.str) (some e)

/-- `PictureService.upload_file` (`services.py` lines 46-161).
Returns the outcome (the DTO or the raised exception) together with the
trace of storage-client calls actually made. -/
def PictureService.upload_file (svc : FileStorageService)
    (file_content : List Nat) (original_filename : Option String)
    (content_type : Option String) (target_bucket : Option String := none) :
    Except Exn UploadResponseDTO × List StorageCall :=
  if file_content.isEmpty then
    (.error (.invalidInputError "Cannot upload an empty file." none), [])
  else if pyFalsy original_filename then
    (.error (.invalidInputError "Original filename is required for upload." none), [])
  else if pyFalsy target_bucket then
    (.error (.invalidInputError "Target bucket must be specified." none), [])
  else
    let filename := original_filename.getD ""
    let bucket := target_bucket.getD ""
    let file_data : FileUploadData :=
      { content_bytes := file_content
        size := file_content.length
        filename := filename
        content_type := content_type }
    match svc.upload_file file_data bucket with
    | .error err => (.error (wrapStoreExn err), [.store file_data bucket])
    | .ok (object_name, etag, file_size) =>
      match svc.get_file_url bucket object_name with
      | .error err =>
          (.error (wrapUrlExn err),
           [.store file_data bucket, .resolveUrl bucket object_name])
      | .ok file_url =>
          (.ok { original_filename := filename
                 object_name := object_name
                 file_url := file_url
                 size := file_size
                 etag := etag },
           [.store file_data bucket, .resolveUrl bucket object_name])

/-- The uploaded file as the route handler sees it
(`service/routers/pictures.py`): its (optional) client-supplied filename
and content type, and the outcome of `await file.read()`. -/
structure UploadFileReq where
  filename : Option String
  content_type : Option String
  readResult : Except Exn (List Nat)

/-- One call from the route handler into `PictureService.upload_file`,
with the arguments it was given (`pictures.py` lines 92-97). -/
structure ServiceCall where
  file_content : List Nat
  original_filename : Option String
  content_type : Option String
  target_bucket : Option String

/-- What one execution of the `upload` route handler produced: the HTTP-level
outcome (DTO or raised exception), whether `file.close()` ran, and the
calls made into the picture service. -/
structure RouteResult where
  result : Except Exn UploadResponseDTO
  fileClosed : Bool
  serviceCalls : List ServiceCall

/-- The picture service as the route sees it: the behaviour of
`picture_service.upload_file` (injected via `Depends(get_picture_service)`). -/
def PictureServiceFn :=
  List Nat → Option String → Option String → Option String →
  Except Exn UploadResponseDTO

/-- The `upload` route handler (`service/routers/pictures.py` lines 51-99).
The `try` block reads the file and raises `InvalidInputError` on empty
contents; `except Exception` catches *any* exception from the block —
including that `InvalidInputError` — and wraps it in a base `PictureError`;
`finally` closes the file handle on every path.  On a successful non-empty
read the handler calls the picture service with the constant bucket
`'test'` (`uploader_user_id`, line 89) and returns its result. -/
def uploadRoute (svcFn : PictureServiceFn) (file : UploadFileReq) : RouteResult :=
  match file.readResult with
  | .error err =>
      { result := .error (.pictureError
          ("Failed to read uploaded file " ++ pyStrOpt file.filename ++ ": " ++ err.str)
          (some err))
        fileClosed := true
        serviceCalls := [] }
  | .ok contents =>
      if contents.isEmpty then
        let inner : Exn := .invalidInputError "Cannot upload an empty file." none
        { result := .error (.pictureError
            ("Failed to read uploaded file " ++ pyStrOpt file.filename ++ ": " ++ inner.str)
            (some inner))
          fileClosed := true
          serviceCalls := [] }
      else
        { result := svcFn contents file.filename file.content_type (some "test")
          fileClosed := true
          serviceCalls :=
            [{ file_content := contents
               original_filename := file.filename
               content_type := file.content_type
               target_bucket := some "test" }] }

/-- The route handler wired to the real `PictureService.upload_file`
over a given storage client, as FastAPI dependency injection does. -/
def uploadPipeline (svc : FileStorageService) (file : UploadFileReq) : RouteResult :=
  uploadRoute
    (fun c f ct b => (PictureService.upload_file svc c f ct b).fst)
    file

/-- Modelled from the spec: the exception-handler registration that
translates service exceptions to HTTP status codes is code of this
repository that is not under `src/` (the `service.routers` package
`__init__`/`general` modules, imported by `main.py` and `pictures.py`,
are missing; `create_app` itself registers no handlers).  Per the spec,
there are exactly two error kinds: input-validation errors are mapped
to 400 and upload/storage failures to 500. -/
def httpStatusOf : Exn → Nat
  | .invalidInputError _ _ => 400
  | _ => 500

/-- HTTP status of a route outcome: `201 Created` on success
(`pictures.py` line 43), otherwise the translated error status. -/
def routeStatus (r : RouteResult) : Nat :=
  match r.result with
  | .ok _ => 201
  | .error e => httpStatusOf e

/-- `HealthCheckDTO` (`service/schemas.py`). -/
structure HealthCheckDTO where
  status : String
deriving Repr, DecidableEq

/-- `InfoDTO` (`service/schemas.py`). -/
structure InfoDTO where
  name : String
  version : String
  uptime : String
deriving Repr, DecidableEq

/-- The `health` handler (`service/routes.py` lines 130-142): it takes no
input and builds the constant DTO. -/
def health : HealthCheckDTO :=
  { status := "UP" }

/-- Zero-pad a natural number to `width` digits (Python `"%02d"`/`"%06d"`
for non-negative values). -/
def padNum (width n : Nat) : String :=
  let s := toString n
  if s.length < width then
    String.mk (List.replicate (width - s.length) (Char.ofNat 48)) ++ s
  else s

/-- Python `str(timedelta)` for a delta of `micros` microseconds
(CPython `datetime.timedelta.__str__`): normalise into
`days` (floor), `seconds` in `[0, 86400)` and `microseconds` in
`[0, 10^6)`, render `H:MM:SS`, prepend `D day(s), ` when `days` is
non-zero, append `.ffffff` when microseconds are non-zero. -/
def timedeltaStr (micros : Int) : String :=
  let usPerDay : Int := 86400000000
  let days : Int := micros.ediv usPerDay
  let rem : Nat := (micros.emod usPerDay).toNat
  let seconds : Nat := rem / 1000000
  let microseconds : Nat := rem % 1000000
  let ss : Nat := seconds % 60
  let mm : Nat := (seconds / 60) % 60
  let hh : Nat := seconds / 3600
  let base := toString hh ++ ":" ++ padNum 2 mm ++ ":" ++ padNum 2 ss
  let base :=
    if days ≠ 0 then
      toString days ++ " day" ++ (if days.natAbs ≠ 1 then "s" else "") ++ ", " ++ base
    else base
  if microseconds ≠ 0 then base ++ "." ++ padNum 6 microseconds else base

/-- The `start_time` attribute found in the application state by
`getattr(request.app.state, 'start_time', None)` (`routes.py` line 175):
absent (`None`), a genuine `datetime` (its timestamp in microseconds),
or a malformed (non-`datetime`) value of some truthiness. -/
inductive StateValue where
  | absent
  | datetimeV (t : Int)
  | malformed (truthy : Bool)
deriving Repr, DecidableEq

/-- The uptime computation of the `version` (info) handler
(`service/routes.py` lines 174-180): `if start_time and
isinstance(start_time, datetime)` — a `datetime` is always truthy in
Python 3, so this is the datetime branch; `elif start_time` — a truthy
non-`datetime` yields the invalid-format sentinel; otherwise the initial
`'Not yet started'` stands. -/
def infoUptime (now : Int) (start_time : StateValue) : String :=
  match start_time with
  | .absent => "Not yet started"
  | .datetimeV t => timedeltaStr (now - t)
  | .malformed truthy =>
      if truthy then "Error: Invalid start_time format in app state"
      else "Not yet started"

/-- The `version` (info) handler (`service/routes.py` lines 160-186),
parameterised by the configured service name/version and the current
time. -/
def versionHandler (name ver : String) (now : Int) (start_time : StateValue) :
    InfoDTO :=
  { name := name, version := ver, uptime := infoUptime now start_time }

/-- Whether an `upload_file` outcome is a raised `InvalidInputError`
(in particular, not a success response). -/
def raisesInvalidInput (x : Except Exn UploadResponseDTO) : Bool :=
  match x with
  | .error e => e.isInvalidInputError
  | .ok _ => false

/-- Whether an `upload_file` outcome is a raised `PictureUploadError`. -/
def raisesPictureUpload (x : Except Exn UploadResponseDTO) : Bool :=
  match x with
  | .error e => e.isPictureUploadError
  | .ok _ => false

/-! Concrete fixtures used to evaluate the definitions at specific inputs. -/

/-- A storage client whose calls both succeed, reporting `sz` as the stored
size. -/
def okSvc (sz : Nat) : FileStorageService :=
  { upload_file := fun _ _ => .ok ("obj", "etag", sz)
    get_file_url := fun _ _ => .ok "http://u/obj" }

/-- A storage client whose store-object call raises `ValueError`. -/
def valueErrSvc : FileStorageService :=
  { upload_file := fun _ _ => .error (.valueError "bad")
    get_file_url := fun _ _ => .ok "http://u/obj" }

/-- A picture-service behaviour that always succeeds with a fixed DTO. -/
def svcFnOk : PictureServiceFn :=
  fun _ _ _ _ =>
    .ok { original_filename := "a.png", object_name := "o",
          file_url := "http://u/o", size := 1, etag := "e" }

/-- A request whose one-byte read succeeds. -/
def reqA : UploadFileReq :=
  { filename := some "a.png", content_type := some "image/png",
    readResult := .ok [1] }

/-- The service call the route makes for `reqA`. -/
def routeCallA : ServiceCall :=
  { file_content := [1], original_filename := some "a.png",
    content_type := some "image/png", target_bucket := some "test" }

/-- A request whose read raises an unexpected exception. -/
def reqReadErr : UploadFileReq :=
  { filename := some "a.png", content_type := some "image/png",
    readResult := .error (.otherError "boom") }

/-- A request that uploads an empty file (the read succeeds with no bytes). -/
def emptyFileReq : UploadFileReq :=
  { filename := some "empty_file.txt", content_type := some "text/plain",
    readResult := .ok [] }

/-- C6: every call to the health endpoint handler returns exactly
`{status: "UP"}`; the handler consults no application state at all. -/
theorem health_always_up : health = { status := "UP" } := rfl

/-- C9: constructing a `PictureService` with a falsy (absent) storage service
raises `ValueError`; with a present storage service the constructor succeeds
and stores exactly that service instance in `file_storage_service`. -/
theorem init_requires_storage_service :
    PictureService.init none =
      .error (.valueError "FileStorageService dependency is required.")
    ∧ ∀ svc : FileStorageService,
        PictureService.init (some svc) = .ok { file_storage_service := svc } :=
  ⟨rfl, fun _ => rfl⟩

/-- C3: for every call to `PictureService.upload_file` with empty file
content, or a missing/empty original filename, or a missing/empty target
bucket, the call raises `InvalidInputError` and does not return a success
response. -/
theorem invalid_input_raises_invalid_input_error
    (svc : FileStorageService) (content : List Nat) (fn ct tb : Option String)
    (h : content.isEmpty = true ∨ pyFalsy fn = true ∨ pyFalsy tb = true) :
    raisesInvalidInput (PictureService.upload_file svc content fn ct tb).fst = true := by
  by_cases hc : content.isEmpty = true
  · simp [PictureService.upload_file, hc, raisesInvalidInput, Exn.isInvalidInputError]
  · have hc' : content.isEmpty = false := by simpa using hc
    by_cases hf : pyFalsy fn = true
    · simp [PictureService.upload_file, hc', hf, raisesInvalidInput,
        Exn.isInvalidInputError]
    · have hf' : pyFalsy fn = false := by simpa using hf
      have hb : pyFalsy tb = true := by
        rcases h with h | h | h
        · exact absurd h hc
        · exact absurd h hf
        · exact h
      simp [PictureService.upload_file, hc', hf', hb, raisesInvalidInput,
        Exn.isInvalidInputError]

/-- Witness for C3: uploading empty content against a healthy storage client
raises `InvalidInputError`. -/
theorem invalid_input_raises_invalid_input_error_witness :
    ([] : List Nat).isEmpty = true
    ∧ raisesInvalidInput
        (PictureService.upload_file (okSvc 1) [] (some "a.png") none (some "bkt")).fst = true :=
  ⟨rfl,
   invalid_input_raises_invalid_input_error (okSvc 1) [] (some "a.png") none
     (some "bkt") (Or.inl rfl)⟩

/-- C5: whenever validation fails (empty bytes, missing filename or missing
bucket), `PictureService.upload_file` makes no storage-client call at all:
its trace of store-object / resolve-URL interactions is empty. -/
theorem validation_precedes_storage_calls
    (svc : FileStorageService) (content : List Nat) (fn ct tb : Option String)
    (h : content.isEmpty = true ∨ pyFalsy fn = true ∨ pyFalsy tb = true) :
    (PictureService.upload_file svc content fn ct tb).snd = [] := by
  by_cases hc : content.isEmpty = true
  · simp [PictureService.upload_file, hc]
  · have hc' : content.isEmpty = false := by simpa using hc
    by_cases hf : pyFalsy fn = true
    · simp [PictureService.upload_file, hc', hf]
    · have hf' : pyFalsy fn = false := by simpa using hf
      have hb : pyFalsy tb = true := by
        rcases h with h | h | h
        · exact absurd h hc
        · exact absurd h hf
        · exact h
      simp [PictureService.upload_file, hc', hf', hb]

/-- Witness for C5: with a missing filename (and non-empty content), no
storage call is made. -/
theorem validation_precedes_storage_calls_witness :
    pyFalsy (none : Option String) = true
    ∧ (PictureService.upload_file (okSvc 1) [1] none none (some "bkt")).snd = [] :=
  ⟨rfl,
   validation_precedes_storage_calls (okSvc 1) [1] none none (some "bkt")
     (Or.inr (Or.inl rfl))⟩

/-- Counterexample to C1 as stated: the response's `size` field is the size
value the storage client reported (`services.py` line 159), not the input
byte length.  A storage client whose calls succeed but which reports size
999 for the one-byte payload `[1]` yields a successful response whose size
is 999 ≠ 1. -/
theorem upload_size_counterexample :
    (PictureService.upload_file (okSvc 999) [1] (some "a.png") none (some "bkt")).fst
      = .ok { original_filename := "a.png", object_name := "obj",
              file_url := "http://u/obj", size := 999, etag := "etag" }
    ∧ (999 : Nat) ≠ [1].length :=
  ⟨rfl, by decide⟩

/-- C1 (amended): for non-empty payload, filename and bucket, when the
store-object call succeeds with `(object_name, etag, file_size)` and the
resolve-URL call succeeds with `url`, `upload_file` returns a response whose
object key, ETag and size are exactly what the storage client returned,
whose `original_filename` is the input filename and whose `file_url` is the
resolved URL (so the size equals the input byte length exactly when the
client reports it as such). -/
theorem upload_success_returns_client_metadata
    (svc : FileStorageService) (content : List Nat) (fn ct tb : Option String)
    (hc : content.isEmpty = false) (hf : pyFalsy fn = false)
    (hb : pyFalsy tb = false)
    (object_name etag url : String) (file_size : Nat)
    (hstore : svc.upload_file
        { content_bytes := content, size := content.length,
          filename := fn.getD "", content_type := ct } (tb.getD "")
      = .ok (object_name, etag, file_size))
    (hurl : svc.get_file_url (tb.getD "") object_name = .ok url) :
    (PictureService.upload_file svc content fn ct tb).fst =
      .ok { original_filename := fn.getD "", object_name := object_name,
            file_url := url, size := file_size, etag := etag } := by
  simp [PictureService.upload_file, hc, hf, hb, hstore, hurl]

/-- Witness for the amended C1: a three-byte upload against a client that
reports size 3 returns the client's object key, ETag, URL and size. -/
theorem upload_success_returns_client_metadata_witness :
    (PictureService.upload_file (okSvc 3) [0, 1, 2] (some "a.png") none (some "bkt")).fst =
      .ok { original_filename := "a.png", object_name := "obj",
            file_url := "http://u/obj", size := 3, etag := "etag" } :=
  upload_success_returns_client_metadata (okSvc 3) [0, 1, 2] (some "a.png")
    none (some "bkt") rfl rfl rfl "obj" "etag" "http://u/obj" 3 rfl rfl

/-- Counterexample to C2 as stated: a `ValueError` raised by the storage
client during the store-object call is re-raised as `InvalidInputError`
(`services.py` lines 113-119), not as `PictureUploadError`; the original
exception is still preserved. -/
theorem storage_valueerror_counterexample :
    (PictureService.upload_file valueErrSvc [1] (some "a.png") none (some "bkt")).fst
      = .error (.invalidInputError "Invalid file provided for upload: bad"
          (some (.valueError "bad")))
    ∧ raisesPictureUpload
        (PictureService.upload_file valueErrSvc [1] (some "a.png") none (some "bkt")).fst
      = false :=
  ⟨rfl, rfl⟩

/-- C2 (amended): for valid inputs, every exception the storage client raises
during the store-object call is wrapped with the original exception
preserved — as `InvalidInputError` when the exception is a `ValueError`, as
`PictureUploadError` otherwise — and every exception raised during the
resolve-URL call is wrapped as `PictureUploadError` preserving the
original. -/
theorem storage_exception_wrapping
    (svc : FileStorageService) (content : List Nat) (fn ct tb : Option String)
    (hc : content.isEmpty = false) (hf : pyFalsy fn = false)
    (hb : pyFalsy tb = false) :
    (∀ e, svc.upload_file
        { content_bytes := content, size := content.length,
          filename := fn.getD "", content_type := ct } (tb.getD "")
        = .error e →
      ∃ m,
        (e.isValueError = true ∧
          (PictureService.upload_file svc content fn ct tb).fst
            = .error (.invalidInputError m (some e)))
        ∨ (e.isValueError = false ∧
          (PictureService.upload_file svc content fn ct tb).fst
            = .error (.pictureUploadError m (some e))))
    ∧ (∀ object_name etag file_size e,
        svc.upload_file
          { content_bytes := content, size := content.length,
            filename := fn.getD "", content_type := ct } (tb.getD "")
          = .ok (object_name, etag, file_size) →
        svc.get_file_url (tb.getD "") object_name = .error e →
        ∃ m, (PictureService.upload_file svc content fn ct tb).fst
          = .error (.pictureUploadError m (some e))) := by
  constructor
  · intro e he
    cases e <;>
      simp [PictureService.upload_file, hc, hf, hb, he, wrapStoreExn,
        Exn.isValueError, Exn.str]
  · intro object_name etag file_size e hok he
    cases e <;>
      simp [PictureService.upload_file, hc, hf, hb, hok, he, wrapUrlExn,
        Exn.str]

/-- Witness for the amended C2: a `ValueError` from the store-object call of
a concrete client is wrapped as an error that preserves it. -/
theorem storage_exception_wrapping_witness :
    ([1] : List Nat).isEmpty = false
    ∧ ∃ m,
        ((Exn.valueError "bad").isValueError = true ∧
          (PictureService.upload_file valueErrSvc [1] (some "a.png") none (some "bkt")).fst
            = .error (.invalidInputError m (some (.valueError "bad"))))
        ∨ ((Exn.valueError "bad").isValueError = false ∧
          (PictureService.upload_file valueErrSvc [1] (some "a.png") none (some "bkt")).fst
            = .error (.pictureUploadError m (some (.valueError "bad")))) :=
  ⟨rfl,
   (storage_exception_wrapping valueErrSvc [1] (some "a.png") none (some "bkt")
       rfl rfl rfl).1 (.valueError "bad") rfl⟩

/-- C4 (evaluation at the failing input): posting an empty file makes the
route handler raise the empty-file `InvalidInputError` inside its own `try`
block, where the `except Exception` clause catches it and wraps it in a base
`PictureError`; under the spec's two-kind translation (input-validation →
400, everything else → 500) the response status is therefore 500, not the
400 the claim (and the repository's own integration test
`test_upload_empty_file`) requires. -/
theorem empty_file_route_outcome :
    (uploadPipeline (okSvc 1) emptyFileReq).result =
      .error (.pictureError
        "Failed to read uploaded file empty_file.txt: Cannot upload an empty file."
        (some (.invalidInputError "Cannot upload an empty file." none)))
    ∧ routeStatus (uploadPipeline (okSvc 1) emptyFileReq) = 500 :=
  ⟨rfl, rfl⟩

/-- C7: the info handler's uptime is `'Not yet started'` when no start time
is recorded, the formatted duration `now - start` when a genuine `datetime`
is recorded, and a sentinel string (never a failure) when the recorded value
is malformed. -/
theorem info_uptime_cases (name ver : String) (now : Int) (st : StateValue) :
    (st = .absent → (versionHandler name ver now st).uptime = "Not yet started")
    ∧ (∀ t, st = .datetimeV t →
        (versionHandler name ver now st).uptime = timedeltaStr (now - t))
    ∧ (∀ b, st = .malformed b →
        (versionHandler name ver now st).uptime
            = "Error: Invalid start_time format in app state"
        ∨ (versionHandler name ver now st).uptime = "Not yet started") := by
  refine ⟨?_, ?_, ?_⟩
  · intro h; subst h; rfl
  · intro t h; subst h; rfl
  · intro b h; subst h
    cases b
    · exact Or.inr rfl
    · exact Or.inl rfl

/-- Witness for C7: with a recorded start timestamp 0 and current time
90061123456 microseconds, the reported uptime is the formatted duration. -/
theorem info_uptime_cases_witness :
    (versionHandler "picture-service" "1.0.0" 90061123456 (.datetimeV 0)).uptime
      = timedeltaStr (90061123456 - 0)
    ∧ timedeltaStr (90061123456 - 0) = "1 day, 1:01:01.123456" :=
  ⟨(info_uptime_cases "picture-service" "1.0.0" 90061123456 (.datetimeV 0)).2.1
      0 rfl,
   by decide⟩

/-- C8: every call the upload route handler makes into the picture service
passes the constant bucket identifier `'test'` as the target bucket,
whatever the request's content, filename or content type. -/
theorem upload_route_bucket_is_test (svcFn : PictureServiceFn)
    (file : UploadFileReq) (c : ServiceCall)
    (hmem : c ∈ (uploadRoute svcFn file).serviceCalls) :
    c.target_bucket = some "test" := by
  unfold uploadRoute at hmem
  rcases hr : file.readResult with e | contents
  · rw [hr] at hmem; simp at hmem
  · rw [hr] at hmem
    by_cases hce : contents.isEmpty = true
    · simp [hce] at hmem
    · have hce' : contents.isEmpty = false := by simpa using hce
      simp [hce'] at hmem
      rw [hmem]

/-- Witness for C8: the single service call made for a concrete one-byte
request carries bucket `'test'`. -/
theorem upload_route_bucket_is_test_witness :
    routeCallA ∈ (uploadRoute svcFnOk reqA).serviceCalls
    ∧ routeCallA.target_bucket = some "test" :=
  have hmem : routeCallA ∈ (uploadRoute svcFnOk reqA).serviceCalls := by
    simp [uploadRoute, reqA, routeCallA]
  ⟨hmem, upload_route_bucket_is_test svcFnOk reqA routeCallA hmem⟩

/-- C10: the upload route handler closes the file handle on every path
(`finally`), and a failing read is wrapped in a base `PictureError` carrying
the original exception rather than propagated raw; when the read yields no
bytes, the empty-file `InvalidInputError` likewise ends up wrapped (as the
original of a `PictureError`) rather than escaping the `try` block raw. -/
theorem upload_route_closes_file (svcFn : PictureServiceFn)
    (file : UploadFileReq) :
    (uploadRoute svcFn file).fileClosed = true
    ∧ (∀ e, file.readResult = .error e →
        (uploadRoute svcFn file).result =
          .error (.pictureError
            ("Failed to read uploaded file " ++ pyStrOpt file.filename
              ++ ": " ++ e.str)
            (some e)))
    ∧ (∀ contents, file.readResult = .ok contents → contents.isEmpty = true →
        (uploadRoute svcFn file).result =
          .error (.pictureError
            ("Failed to read uploaded file " ++ pyStrOpt file.filename
              ++ ": " ++ "Cannot upload an empty file.")
            (some (.invalidInputError "Cannot upload an empty file." none)))) := by
  refine ⟨?_, ?_, ?_⟩
  · rcases hr : file.readResult with e | contents
    · simp [uploadRoute, hr]
    · by_cases hce : contents.isEmpty = true <;>
        simp [uploadRoute, hr, hce]
  · intro e he
    simp [uploadRoute, he]
  · intro contents hok hce
    simp [uploadRoute, hok, hce, Exn.str]

/-- Witness for C10: for a request whose read raises, the handle is closed
and the raised error is a `PictureError` wrapping the original exception. -/
theorem upload_route_closes_file_witness :
    (uploadRoute svcFnOk reqReadErr).fileClosed = true
    ∧ reqReadErr.readResult = .error (.otherError "boom")
    ∧ (uploadRoute svcFnOk reqReadErr).result =
        .error (.pictureError
          ("Failed to read uploaded file " ++ pyStrOpt reqReadErr.filename
            ++ ": " ++ (Exn.otherError "boom").str)
          (some (.otherError "boom"))) :=
  ⟨(upload_route_closes_file svcFnOk reqReadErr).1, rfl,
   (upload_route_closes_file svcFnOk reqReadErr).2.1 (.otherError "boom") rfl⟩

end PictureSvc
